import Mathlib

/-!
Shallow embedding of `src/deploy/lambda_functions/api_dispense/dispense.py`.

Modelling conventions:
* DynamoDB `Decimal` amounts and `time.time()` timestamps are modelled as
  rationals (`ℚ`); the stored balances are exact decimals, and decimal
  arithmetic on them is exact rational arithmetic.
* A request entry is serialized in the source as the string
  `requestId|command|timestamp|target` and re-parsed with `split` on the
  pipe character; the embedding represents an entry by its parsed fields
  (`ReqEntry`).  `request_details` and `remove_request` compare field 1
  (the command), which on well-formed entries is exactly the `.command`
  field here.
* The two entry points are modelled as pure functions from their inputs
  (the event fields actually consulted, the stored record, the current
  time, the generated request id) to a result structure that records the
  HTTP response, the record written back by `write_dispenser_record` (if
  any), the shadow update sent over `iot_client.update_thing_shadow` (if
  any), the messages published on the events topic, the audit entries
  written by `log_event`, and whether a `KeyError` was raised and caught
  by the surrounding handler.
* Python `int(...)` truncates toward zero; `pyInt` models that.
* `Decimal(1.00)` in the source converts the binary float `1.00`, which
  is exactly the integer 1, so the debit amount is exactly 1.
-/

/-- A parsed request entry: the source serializes it as the delimited
string `requestId|command|timestamp|target`. -/
structure ReqEntry where
  requestId : String
  command   : String
  timestamp : ℚ
  target    : String
deriving DecidableEq, Repr

/-- A dispenser record from the dispenser table: primary key, exact
decimal credit balance, and the ordered list of outstanding requests. -/
structure DispenserRecord where
  dispenserId : String
  credits     : ℚ
  requests    : List ReqEntry
deriving DecidableEq, Repr

/-- The response dict built by `http_response`; the `headers` entry is the
constant `httpHeaders` and is omitted. -/
structure HttpResponse where
  body       : String
  statusCode : Nat
deriving DecidableEq, Repr

/-- Create response dict for returning query (`http_response` in the
source), for a string body. -/
def http_response (statusCode : Nat) (body : String) : HttpResponse :=
  { body := body, statusCode := statusCode }

/-- When `process_api_event` catches a `KeyError` it calls
`http_response(httpHeaders, 500, e)` with the exception object as body;
since that body is neither `str` nor `dict`, `http_response` replaces it
with the text `ERROR, invalid type of <class \x7bKeyError\x7d> for body of
return` (shown here with braces standing for quoting) and forces status
500.  The body below abbreviates that fixed generic text. -/
def keyErrorResponse : HttpResponse :=
  { body := "ERROR, invalid type of class KeyError for body of return",
    statusCode := 500 }

/-- Read, parse, and return dispenser record (`read_dispenser`): when the
table query returns no item the function returns an error `http_response`
dict instead of a record; callers that treat it as a record then raise
`KeyError` on field access. -/
def read_dispenser (dispenser : String) (stored : Option DispenserRecord) :
    HttpResponse ⊕ DispenserRecord :=
  match stored with
  | none =>
    Sum.inl (http_response 200
      ("ERROR: Dispenser " ++ dispenser ++ " does not exist"))
  | some r => Sum.inr r

/-- Python `int()` applied to a rational: truncation toward zero. -/
def pyInt (q : ℚ) : Int :=
  if 0 ≤ q then ⌊q⌋ else ⌈q⌉

/-- Green colors for 1, 2, 3, and greater. -/
def color_scale : List String :=
  ["#006600", "#009900", "#00E600", "#00FF00"]

/-- Return count and color based on credit amount (`set_led_ring`).
The source casts the `Decimal` amount to a binary float first; for
amounts that are whole numbers of cents the float computation agrees
with the exact rational one, because the branch boundaries 0, 0.25,
0.5, 0.75, 1, ..., 8 are all exactly representable binary floats. -/
def set_led_ring (amount : ℚ) : Int × String :=
  if amount = 0 then
    -- No credits all lit up red
    (8, "#FF0000")
  else if amount < 1 then
    -- 0.01 - 0.99 - 2 per .25, white
    (pyInt (amount / (1/4)) * 2, "#F0F0F0")
  else
    -- At least 1.00 or more, set count to 1-8 per 1.00
    let count : Int := if amount < 8 then pyInt amount else 8
    let color : String :=
      if count < 4 then color_scale.getD (count - 1).toNat "#00FF00"
      else color_scale.getD 3 "#00FF00"
    (count, color)

/-- Two-decimal rendering of an amount, modelling the format spec `0.2f`
used in the log and response messages, for amounts that are whole
numbers of cents (all balances handled by the source are). -/
def fmt2 (q : ℚ) : String :=
  let total : Int := ⌊q * 100 + 1/2⌋
  let sign : String := if total < 0 then "-" else ""
  let t : Nat := total.natAbs
  sign ++ toString (t / 100) ++ "." ++
    (if t % 100 < 10 then "0" else "") ++ toString (t % 100)

/-- Return details for command in requests (`request_details`): the first
entry whose command field matches, else `none`. -/
def request_details (requests : List ReqEntry) (command : String) :
    Option ReqEntry :=
  requests.find? (fun r => r.command == command)

/-- Return record with request for command removed (`remove_request`):
keeps exactly the entries whose command field differs. -/
def remove_request (record : DispenserRecord) (command : String) :
    DispenserRecord :=
  { record with
    requests := record.requests.filter (fun i => i.command != command) }

/-- Outcome of `process_api_event`: the HTTP response returned, the
record written to the dispenser table by `write_dispenser_record` (if
any), the requestId carried in the shadow-update command sent to the
device (if any), and the audit entries written to the event table. -/
structure ApiResult where
  response    : HttpResponse
  written     : Option DispenserRecord
  commandSent : Option String
  logs        : List String
deriving DecidableEq, Repr

/-- Process dispense REQUEST based on API Gateway claims and query
parameters (`process_api_event`).  `dispenser` is the authenticated
claim `custom:dispenserId`; `dispenserIdParam` is the `dispenserId`
query parameter (`none` when absent); `stored` is what the dispenser
table holds for `dispenser` (`none` when the query returns no item);
`now` is `time.time()`; `request_id` is the value `get_request_id`
returns in this invocation. -/
def process_api_event (dispenser : String) (dispenserIdParam : Option String)
    (stored : Option DispenserRecord) (now : ℚ) (request_id : String) :
    ApiResult :=
  match dispenserIdParam with
  | none =>
    { response := http_response 500 ("Parameter \"dispenserId\" must be present"),
      written := none, commandSent := none, logs := [] }
  | some p =>
    if p = dispenser then
      match read_dispenser dispenser stored with
      | Sum.inl _ =>
        -- read_dispenser returned the error http_response dict instead of a
        -- record; the following access dispenser_record["credits"] raises
        -- KeyError, caught by the handler, which returns the generic
        -- invalid-type 500 response; the does-not-exist message is lost.
        { response := keyErrorResponse,
          written := none, commandSent := none, logs := [] }
      | Sum.inr dispenser_record =>
        if dispenser_record.credits < 1 then
          -- Not enough to dispense
          { response := http_response 200
              ("Dispenser: " ++ dispenser ++ " only has $" ++
                fmt2 dispenser_record.credits ++
                " credits, at least $1.00 required to activate dispenser"),
            written := none, commandSent := none,
            logs := ["Dispense: ERROR: dispenser: " ++ dispenser ++
              " only has $" ++ fmt2 dispenser_record.credits ++
              " credits, at least $1.00 required to activate dispenser"] }
        else
          match request_details dispenser_record.requests ("dispense") with
          | some dispense_request =>
            if now - dispense_request.timestamp < 5 then
              -- request still current
              { response := http_response 200
                  ("Dispense operation already in progress, no action taken"),
                written := none, commandSent := none,
                logs := ["Dispense: ERROR: request " ++
                  dispense_request.requestId ++ " already in progress"] }
            else
              -- Stale request, remove from request list and continue
              let record1 := remove_request dispenser_record ("dispense")
              let record2 := { record1 with requests :=
                record1.requests ++ [⟨request_id, "dispense", now, "dispenser"⟩] }
              { response := http_response 200
                  ("Dispenser " ++ dispenser ++ " requested to be activated"),
                written := some record2, commandSent := some request_id,
                logs := ["Dispense: Successful request to dispense initiated, requestId: "
                  ++ request_id] }
          | none =>
            -- No in-flight requests, create new one and append to requests
            let record2 := { dispenser_record with requests :=
              dispenser_record.requests ++
                [⟨request_id, "dispense", now, "dispenser"⟩] }
            { response := http_response 200
                ("Dispenser " ++ dispenser ++ " requested to be activated"),
              written := some record2, commandSent := some request_id,
              logs := ["Dispense: Successful request to dispense initiated, requestId: "
                ++ request_id] }
    else
      { response := http_response 500
          ("dispenser parameter must match users assigned dispenser -- no cheating!!!"),
        written := none, commandSent := none, logs := [] }

/-- The `state.reported.response` part of a shadow event delivered to
`process_iot_event`: absent (or the enclosing keys absent), present but
null (the follow-up clearing write), or a payload carrying a requestId
and, possibly, a result tag.  A payload without a `result` key models a
shadow document where `response.result` is missing. -/
inductive ShadowResponse where
  | absent : ShadowResponse
  | nullResponse : ShadowResponse
  | payload (requestId : String) (result : Option String) : ShadowResponse
deriving DecidableEq, Repr

/-- The shadow update sent by `process_iot_event`: on success, set the
LED ring and clear the reported response; on failure, clear the desired
request and the reported response. -/
inductive ShadowUpdate where
  | setLed (count : Int) (color : String) : ShadowUpdate
  | clearRequestResponse : ShadowUpdate
deriving DecidableEq, Repr

/-- Outcome of `process_iot_event`: the record written back (if any),
the shadow update sent (if any), the messages published on the events
topic by `iot_publish_event`, the audit entries written to the event
table by `log_event`, and whether a `KeyError` was raised and caught by
the handler around the reconciliation body. -/
structure IotResult where
  written        : Option DispenserRecord
  shadow         : Option ShadowUpdate
  published      : List String
  logs           : List String
  raisedKeyError : Bool
deriving DecidableEq, Repr

/-- An `IotResult` with no effects at all. -/
def iotNoEffects (raised : Bool) : IotResult :=
  { written := none, shadow := none, published := [], logs := [],
    raisedKeyError := raised }

/-- Process event sent via IoT Rules Engine action (`process_iot_event`).
`dispenser` is segment 2 of the event topic; `resp` is the
`state.reported.response` content of the shadow event; `stored` is what
the dispenser table holds for `dispenser`; `now` is `time.time()`.

Faithfully modelled quirk: in both the no-outstanding-request branch and
the mismatched-requestId branch the source builds its log message from
`event["requestId"]`, a key the shadow event does not have, so a
`KeyError` is raised while the message is being formatted; it is caught
by the surrounding handler and the `log_event` call never happens.  In
the mismatch branch this occurs after `write_dispenser_record`, so the
record mutation persists but no audit entry is appended. -/
def process_iot_event (dispenser : String) (resp : ShadowResponse)
    (stored : Option DispenserRecord) (now : ℚ) : IotResult :=
  match resp with
  | .absent => iotNoEffects false
  | .nullResponse => iotNoEffects false
  | .payload event_request_id result? =>
    match result? with
    | none =>
      -- event["state"]["reported"]["response"]["result"] raises KeyError
      iotNoEffects true
    | some event_response_result =>
      match read_dispenser dispenser stored with
      | Sum.inl _ =>
        -- read_dispenser returned the error http_response dict; the access
        -- dispenser_record["requests"] raises KeyError, caught by the handler
        iotNoEffects true
      | Sum.inr dispenser_record =>
        match request_details dispenser_record.requests ("dispense") with
        | some dispense_request =>
          if event_request_id = dispense_request.requestId ∧
              event_response_result = "success" then
            -- delete request, deduct $1.00 from dispenser, and log
            let record1 := remove_request dispenser_record ("dispense")
            let record2 := { record1 with credits := record1.credits - 1 }
            let lc := set_led_ring record2.credits
            { written := some record2,
              shadow := some (ShadowUpdate.setLed lc.1 lc.2),
              published := ["Dispense: Successfully dispensed for request " ++
                dispense_request.requestId ++ " after " ++
                fmt2 (now - dispense_request.timestamp) ++
                " seconds, $1.00 deducted from credits"],
              logs := [], raisedKeyError := false }
          else if event_request_id = dispense_request.requestId ∧
              event_response_result = "failure" then
            -- dispenser reporting error, remove dispense entry but do not
            -- deduct credits
            let record1 := remove_request dispenser_record ("dispense")
            { written := some record1,
              shadow := some ShadowUpdate.clearRequestResponse,
              published := [],
              logs := ["Dispense: ERROR, did not dispense for request " ++
                dispense_request.requestId ++ " after " ++
                fmt2 (now - dispense_request.timestamp) ++
                " seconds, dispenser reported failure. No credits deducted"],
              raisedKeyError := false }
          else
            -- requestId does not match, clear and do not deduct; the log
            -- message formatting then raises KeyError on event["requestId"],
            -- so no audit entry is appended
            let record1 := remove_request dispenser_record ("dispense")
            { written := some record1, shadow := none, published := [],
              logs := [], raisedKeyError := true }
        | none =>
          -- Should not get here normally; the log message formatting raises
          -- KeyError on event["requestId"], so no audit entry is appended
          iotNoEffects true

/-- Number of entries for the `dispense` command in a request list. -/
def countDispense (requests : List ReqEntry) : Nat :=
  (requests.filter (fun i => i.command == "dispense")).length

/-! ### Helper lemmas -/

/-- After `remove_request record "dispense"` no dispense entry remains. -/
theorem countDispense_remove (record : DispenserRecord) :
    countDispense (remove_request record "dispense").requests = 0 := by
  unfold countDispense remove_request
  simp only [List.filter_filter]
  rw [List.length_eq_zero, List.filter_eq_nil_iff]
  intro a _
  cases h : a.command == "dispense" <;> simp_all [bne]

/-- When `request_details` finds no dispense entry, the list has none. -/
theorem countDispense_of_none (l : List ReqEntry)
    (h : request_details l "dispense" = none) : countDispense l = 0 := by
  unfold request_details at h
  unfold countDispense
  rw [List.length_eq_zero, List.filter_eq_nil_iff]
  intro a ha
  simpa using List.find?_eq_none.mp h a ha

/-- Appending one entry adds one to the dispense count exactly when its
command is `dispense`. -/
theorem countDispense_append (l : List ReqEntry) (e : ReqEntry) :
    countDispense (l ++ [e]) =
      countDispense l + (if e.command = "dispense" then 1 else 0) := by
  unfold countDispense
  rw [List.filter_append, List.length_append]
  by_cases h : e.command = "dispense" <;> simp [h]

/-! ### Claims -/

/-- C9: for every request sequence `s` and entry `e`, removing by the
command of `e` after appending `e` to `s` yields exactly the entries of
`s` whose command differs from that of `e`, in their original order;
removal excludes all entries for that command and leaves surviving
entries untouched. -/
theorem C9_append_then_remove_by_command (rec : DispenserRecord)
    (s : List ReqEntry) (e : ReqEntry) :
    (remove_request { rec with requests := s ++ [e] } e.command).requests
      = s.filter (fun i => i.command != e.command) := by
  simp [remove_request, List.filter_append]

/-- C10: an initiate invocation whose dispenserId query parameter is
present but differs from the callers identity claim returns the 500
rejection and, for every store contents, writes no record, sends no
command, and appends no log entry; hence the record-mutating path is
reachable only when the parameter equals the claim. -/
theorem C10_param_mismatch_rejected (dispenser p rid : String)
    (stored : Option DispenserRecord) (now : ℚ) (hne : p ≠ dispenser) :
    process_api_event dispenser (some p) stored now rid =
      { response := http_response 500
          ("dispenser parameter must match users assigned dispenser -- no cheating!!!"),
        written := none, commandSent := none, logs := [] } := by
  simp [process_api_event, hne]

theorem C10_witness :
    ("002" : String) ≠ "001" ∧
    process_api_event "001" (some ("002")) none 3 "0000-0000" =
      { response := http_response 500
          ("dispenser parameter must match users assigned dispenser -- no cheating!!!"),
        written := none, commandSent := none, logs := [] } :=
  ⟨by decide, C10_param_mismatch_rejected "001" "002" "0000-0000" none 3 (by decide)⟩

/-- C6: an initiate invocation for a subject whose credits are strictly
below 1.00 (exact decimal compare) returns the declined response,
appends the declined audit entry, writes no record, and sends no
command. -/
theorem C6_insufficient_credits_declined (dispenser rid : String)
    (record : DispenserRecord) (now : ℚ) (h : record.credits < 1) :
    process_api_event dispenser (some dispenser) (some record) now rid =
      { response := http_response 200
          ("Dispenser: " ++ dispenser ++ " only has $" ++ fmt2 record.credits ++
            " credits, at least $1.00 required to activate dispenser"),
        written := none, commandSent := none,
        logs := ["Dispense: ERROR: dispenser: " ++ dispenser ++ " only has $" ++
          fmt2 record.credits ++
          " credits, at least $1.00 required to activate dispenser"] } := by
  simp [process_api_event, read_dispenser, h]

def c6rec : DispenserRecord := ⟨"006", 1/2, []⟩

theorem C6_witness :
    c6rec.credits < 1 ∧
    process_api_event "006" (some ("006")) (some c6rec) 0 "0006-0006" =
      { response := http_response 200
          ("Dispenser: 006 only has $0.50 credits, at least $1.00 required to activate dispenser"),
        written := none, commandSent := none,
        logs := ["Dispense: ERROR: dispenser: 006 only has $0.50 credits, at least $1.00 required to activate dispenser"] } := by
  have h : c6rec.credits < 1 := by norm_num [c6rec]
  refine ⟨h, ?_⟩
  rw [C6_insufficient_credits_declined "006" "0006-0006" c6rec 0 h]
  norm_num [c6rec, fmt2, http_response]
  constructor <;> rfl

/-- C7: for a subject absent from the store, `read_dispenser` builds a
does-not-exist response, but `process_api_event` treats it as a record;
the field access raises `KeyError` and the caller receives the generic
invalid-type 500 response instead of being told the subject does not
exist.  No record is written and no command is sent. -/
theorem C7_missing_subject_generic_500 (dispenser rid : String) (now : ℚ) :
    process_api_event dispenser (some dispenser) none now rid =
      { response := keyErrorResponse, written := none, commandSent := none,
        logs := [] }
    ∧ keyErrorResponse ≠ http_response 200
        ("ERROR: Dispenser " ++ dispenser ++ " does not exist") := by
  constructor
  · simp [process_api_event, read_dispenser]
  · simp [keyErrorResponse, http_response]

/-- After removing a command, `request_details` no longer finds it. -/
theorem request_details_remove (record : DispenserRecord) (c : String) :
    request_details (remove_request record c).requests c = none := by
  unfold request_details remove_request
  rw [List.find?_eq_none]
  intro x hx
  have hmem := (List.mem_filter.mp hx).2
  cases h : x.command == c <;> simp_all [bne]

/-- C1: a reconcile whose outcome matches the outstanding dispense
request with result failure, and a reconcile whose outcome requestId
does not match the outstanding request, both leave the credits field of
the subject record unchanged: the ledger is never decremented on any
path other than a matched success. -/
theorem C1_no_debit_off_success_path (dispenser rid res : String)
    (record : DispenserRecord) (req : ReqEntry) (now : ℚ)
    (hreq : request_details record.requests "dispense" = some req)
    (hcase : (rid = req.requestId ∧ res = "failure") ∨ rid ≠ req.requestId) :
    ((process_iot_event dispenser (ShadowResponse.payload rid (some res))
        (some record) now).written.getD record).credits = record.credits := by
  unfold process_iot_event
  simp only [read_dispenser, hreq]
  split_ifs with h1 h2
  · rcases hcase with ⟨_, hb⟩ | hne
    · rw [hb] at h1
      exact absurd h1.2 (by decide)
    · exact absurd h1.1 hne
  · rfl
  · rfl

def c1rec : DispenserRecord :=
  ⟨"011", 3, [⟨"0011-0011", "dispense", 100, "dispenser"⟩]⟩

theorem C1_witness :
    request_details c1rec.requests "dispense" =
      some ⟨"0011-0011", "dispense", 100, "dispenser"⟩ ∧
    ("1234-5678" : String) ≠ "0011-0011" ∧
    ((process_iot_event "011"
        (ShadowResponse.payload "1234-5678" (some "success"))
        (some c1rec) 101).written.getD c1rec).credits = c1rec.credits := by
  have h1 : request_details c1rec.requests "dispense" =
      some ⟨"0011-0011", "dispense", 100, "dispenser"⟩ := by
    simp [request_details, c1rec, List.find?]
  have h2 : ("1234-5678" : String) ≠ "0011-0011" := by decide
  exact ⟨h1, h2, C1_no_debit_off_success_path "011" "1234-5678" "success"
    c1rec ⟨"0011-0011", "dispense", 100, "dispenser"⟩ 101 h1 (Or.inr h2)⟩

/-- C2: a reconcile whose outcome requestId equals the outstanding
dispense requests requestId with result success persists a record whose
credits are exactly the prior credits minus 1.00, in exact rational
arithmetic, with the matched request entry removed. -/
theorem C2_matched_success_debits_exactly_one (dispenser : String)
    (record : DispenserRecord) (req : ReqEntry) (now : ℚ)
    (hreq : request_details record.requests "dispense" = some req) :
    (process_iot_event dispenser
        (ShadowResponse.payload req.requestId (some "success"))
        (some record) now).written =
      some { remove_request record "dispense" with credits := record.credits - 1 }
    ∧ request_details (remove_request record "dispense").requests "dispense"
        = none := by
  refine ⟨?_, request_details_remove record "dispense"⟩
  unfold process_iot_event
  simp only [read_dispenser, hreq]
  rw [if_pos (by simp)]
  rfl

def c2rec : DispenserRecord :=
  ⟨"002", 2, [⟨"0002-0002", "dispense", 100, "dispenser"⟩]⟩

theorem C2_witness :
    request_details c2rec.requests "dispense" =
      some ⟨"0002-0002", "dispense", 100, "dispenser"⟩ ∧
    ((process_iot_event "002"
        (ShadowResponse.payload "0002-0002" (some "success"))
        (some c2rec) 101).written =
      some { remove_request c2rec "dispense" with credits := c2rec.credits - 1 }
     ∧ request_details (remove_request c2rec "dispense").requests "dispense"
        = none) ∧
    c2rec.credits - 1 = 1 := by
  have h1 : request_details c2rec.requests "dispense" =
      some ⟨"0002-0002", "dispense", 100, "dispenser"⟩ := by
    simp [request_details, c2rec, List.find?]
  refine ⟨h1, ?_, by norm_num [c2rec]⟩
  exact C2_matched_success_debits_exactly_one "002" c2rec
    ⟨"0002-0002", "dispense", 100, "dispenser"⟩ 101 h1

/-- C8 as stated fails: at r = 0.1 (with 0 < r < 1) the mapper returns
litCount 0, which is not one of 2, 4, 6; the floor formula yields 0 for
every r below 0.25. -/
theorem C8_counterexample :
    (0:ℚ) < 1/10 ∧ (1/10:ℚ) < 1 ∧ (set_led_ring (1/10)).1 = 0 ∧
    ¬ ((set_led_ring (1/10)).1 = 2 ∨ (set_led_ring (1/10)).1 = 4 ∨
        (set_led_ring (1/10)).1 = 6) := by
  norm_num [set_led_ring, pyInt]

/-- C8 amended: for a remaining credit r with 0 < r < 1 that is a whole
multiple of 0.25 (the spec table rows, r = k/4 with k a natural number),
the mapper returns litCount floor(r/0.25)*2 = 2k, which is one of 2, 4,
6, together with the neutral white color. -/
theorem C8_quarter_steps (r : ℚ) (k : ℕ) (h0 : 0 < r) (h1 : r < 1)
    (hk : r = k / 4) :
    set_led_ring r = (2 * (k:Int), "#F0F0F0") ∧
    (set_led_ring r).1 = ⌊r / (1/4)⌋ * 2 ∧
    (2 * (k:Int) = 2 ∨ 2 * (k:Int) = 4 ∨ 2 * (k:Int) = 6) := by
  subst hk
  have hk1 : 1 ≤ k := by
    by_contra hcon
    push_neg at hcon
    interval_cases k
    norm_num at h0
  have hk3 : k ≤ 3 := by
    by_contra hcon
    push_neg at hcon
    have : (4:ℚ) ≤ (k:ℚ) := by exact_mod_cast hcon
    have : (1:ℚ) ≤ (k:ℚ) / 4 := by linarith
    linarith
  interval_cases k <;> norm_num [set_led_ring, pyInt]

theorem C8_witness :
    (0:ℚ) < 1/2 ∧ (1/2:ℚ) < 1 ∧ (1/2:ℚ) = (2:ℕ) / 4 ∧
    (set_led_ring (1/2) = (2 * ((2:ℕ):Int), "#F0F0F0") ∧
     (set_led_ring (1/2)).1 = ⌊(1/2:ℚ) / (1/4)⌋ * 2 ∧
     (2 * ((2:ℕ):Int) = 2 ∨ 2 * ((2:ℕ):Int) = 4 ∨ 2 * ((2:ℕ):Int) = 6)) :=
  ⟨by norm_num, by norm_num, by norm_num,
    C8_quarter_steps (1/2) 2 (by norm_num) (by norm_num) (by norm_num)⟩

def c4rec : DispenserRecord :=
  ⟨"004", 3, [⟨"0004-0004", "dispense", 100, "dispenser"⟩]⟩

/-- C4 exhibit: a reconcile with a requestId that does not match the
outstanding request removes the outstanding entry and persists the
record with credits unchanged, but the mismatch audit entry is never
appended: formatting the log message reads the key requestId from the
top level of the shadow event, where it is absent, so a KeyError is
raised after the write and before log_event, and the invocation ends
with an empty audit trail. -/
theorem C4_mismatch_persists_but_no_audit :
    process_iot_event "004"
        (ShadowResponse.payload "9999-9999" (some "success"))
        (some c4rec) 101 =
      { written := some { c4rec with requests := [] },
        shadow := none, published := [], logs := [],
        raisedKeyError := true } := by
  norm_num [process_iot_event, read_dispenser, request_details, List.find?,
    remove_request, c4rec]
  rw [if_neg (by decide), if_neg (by decide)]

/-- Appending a dispense entry to a list with no dispense entry makes it
the one `request_details` finds. -/
theorem request_details_append_absent (l : List ReqEntry) (e : ReqEntry)
    (h : request_details l "dispense" = none)
    (he : (e.command == "dispense") = true) :
    request_details (l ++ [e]) "dispense" = some e := by
  unfold request_details at h ⊢
  induction l with
  | nil => simp [List.find?, he]
  | cons a l ih =>
    rw [List.cons_append]
    cases hpa : (a.command == "dispense") with
    | false =>
      simp only [List.find?, hpa] at h ⊢
      exact ih h
    | true =>
      simp only [List.find?, hpa] at h
      exact Option.noConfusion h

def c3rec : DispenserRecord :=
  ⟨"003", 1/2, [⟨"0003-0003", "dispense", 100, "dispenser"⟩]⟩

/-- C3 as stated fails: on a subject with credits 0.50 and an
outstanding dispense request of age 1 (inside the 5-unit window) the
initiate invocation returns the declined response, not the
already-in-progress one, because the credits precondition is checked
before the in-progress guard. -/
theorem C3_counterexample :
    request_details c3rec.requests "dispense" =
      some ⟨"0003-0003", "dispense", 100, "dispenser"⟩ ∧
    (101:ℚ) - 100 < 5 ∧
    (process_api_event "003" (some ("003")) (some c3rec) 101 "0009-0009").response.body
      ≠ "Dispense operation already in progress, no action taken" := by
  refine ⟨by simp [request_details, c3rec, List.find?], by norm_num, ?_⟩
  norm_num [process_api_event, read_dispenser, c3rec, http_response, fmt2]
  decide

/-- C3 amended: provided the subject also satisfies the credits
precondition (credits at least 1.00, which the engine checks before the
in-progress guard), an initiate invocation on a subject with an
outstanding dispense request younger than the 5-unit window returns
already-in-progress with no record write and no command send; and two
initiate calls within the window, starting from a record with
sufficient credits and no outstanding request, yield exactly one
persisted dispense entry and exactly one command send. -/
theorem C3_idempotent_within_window (dispenser rid1 rid2 : String)
    (record record0 : DispenserRecord) (req : ReqEntry) (now now2 : ℚ)
    (hcred : ¬ record.credits < 1)
    (hreq : request_details record.requests "dispense" = some req)
    (hfresh : now - req.timestamp < 5)
    (hcred0 : ¬ record0.credits < 1)
    (hnone : request_details record0.requests "dispense" = none)
    (hwin : now2 - now < 5) :
    (process_api_event dispenser (some dispenser) (some record) now rid1 =
      { response := http_response 200
          ("Dispense operation already in progress, no action taken"),
        written := none, commandSent := none,
        logs := ["Dispense: ERROR: request " ++ req.requestId ++
          " already in progress"] })
    ∧ ((process_api_event dispenser (some dispenser) (some record0) now rid1).written
        = some { record0 with requests :=
            record0.requests ++ [⟨rid1, "dispense", now, "dispenser"⟩] }
      ∧ (process_api_event dispenser (some dispenser) (some record0) now rid1).commandSent
        = some rid1
      ∧ countDispense (record0.requests ++ [⟨rid1, "dispense", now, "dispenser"⟩]) = 1
      ∧ (process_api_event dispenser (some dispenser)
          (some { record0 with requests :=
            record0.requests ++ [⟨rid1, "dispense", now, "dispenser"⟩] })
          now2 rid2).written = none
      ∧ (process_api_event dispenser (some dispenser)
          (some { record0 with requests :=
            record0.requests ++ [⟨rid1, "dispense", now, "dispenser"⟩] })
          now2 rid2).commandSent = none
      ∧ (process_api_event dispenser (some dispenser)
          (some { record0 with requests :=
            record0.requests ++ [⟨rid1, "dispense", now, "dispenser"⟩] })
          now2 rid2).response = http_response 200
            ("Dispense operation already in progress, no action taken")) := by
  have hfind : request_details
      (record0.requests ++ [⟨rid1, "dispense", now, "dispenser"⟩]) "dispense"
      = some ⟨rid1, "dispense", now, "dispenser"⟩ :=
    request_details_append_absent record0.requests _ hnone rfl
  refine ⟨?_, ?_, ?_, ?_, ?_, ?_, ?_⟩
  · simp [process_api_event, read_dispenser, hreq, hcred, hfresh]
  · simp [process_api_event, read_dispenser, hnone, hcred0]
  · simp [process_api_event, read_dispenser, hnone, hcred0]
  · rw [countDispense_append, countDispense_of_none _ hnone]
    simp
  · simp [process_api_event, read_dispenser, hfind, hcred0, hwin]
  · simp [process_api_event, read_dispenser, hfind, hcred0, hwin]
  · simp [process_api_event, read_dispenser, hfind, hcred0, hwin]

def c3arec : DispenserRecord :=
  ⟨"033", 2, [⟨"0033-0033", "dispense", 100, "dispenser"⟩]⟩

def c3arec0 : DispenserRecord := ⟨"033", 2, []⟩

theorem C3_witness :
    (¬ c3arec.credits < 1) ∧
    request_details c3arec.requests "dispense" =
      some ⟨"0033-0033", "dispense", 100, "dispenser"⟩ ∧
    (101:ℚ) - 100 < 5 ∧
    (¬ c3arec0.credits < 1) ∧
    request_details c3arec0.requests "dispense" = none ∧
    (103:ℚ) - 101 < 5 ∧
    ((process_api_event "033" (some ("033")) (some c3arec) 101 "1111-1111" =
      { response := http_response 200
          ("Dispense operation already in progress, no action taken"),
        written := none, commandSent := none,
        logs := ["Dispense: ERROR: request " ++ "0033-0033" ++
          " already in progress"] })
    ∧ ((process_api_event "033" (some ("033")) (some c3arec0) 101 "1111-1111").written
        = some { c3arec0 with requests :=
            c3arec0.requests ++ [⟨"1111-1111", "dispense", 101, "dispenser"⟩] }
      ∧ (process_api_event "033" (some ("033")) (some c3arec0) 101 "1111-1111").commandSent
        = some "1111-1111"
      ∧ countDispense (c3arec0.requests ++ [⟨"1111-1111", "dispense", 101, "dispenser"⟩]) = 1
      ∧ (process_api_event "033" (some ("033"))
          (some { c3arec0 with requests :=
            c3arec0.requests ++ [⟨"1111-1111", "dispense", 101, "dispenser"⟩] })
          103 "2222-2222").written = none
      ∧ (process_api_event "033" (some ("033"))
          (some { c3arec0 with requests :=
            c3arec0.requests ++ [⟨"1111-1111", "dispense", 101, "dispenser"⟩] })
          103 "2222-2222").commandSent = none
      ∧ (process_api_event "033" (some ("033"))
          (some { c3arec0 with requests :=
            c3arec0.requests ++ [⟨"1111-1111", "dispense", 101, "dispenser"⟩] })
          103 "2222-2222").response = http_response 200
            ("Dispense operation already in progress, no action taken"))) := by
  have h1 : ¬ c3arec.credits < 1 := by norm_num [c3arec]
  have h2 : request_details c3arec.requests "dispense" =
      some ⟨"0033-0033", "dispense", 100, "dispenser"⟩ := by
    simp [request_details, c3arec, List.find?]
  have h3 : (101:ℚ) - 100 < 5 := by norm_num
  have h4 : ¬ c3arec0.credits < 1 := by norm_num [c3arec0]
  have h5 : request_details c3arec0.requests "dispense" = none := rfl
  have h6 : (103:ℚ) - 101 < 5 := by norm_num
  exact ⟨h1, h2, h3, h4, h5, h6,
    C3_idempotent_within_window "033" "1111-1111" "2222-2222" c3arec c3arec0
      ⟨"0033-0033", "dispense", 100, "dispenser"⟩ 101 103 h1 h2 h3 h4 h5 h6⟩

/-- Every record written back by the initiate entry point carries
exactly one dispense entry: any stale entry is removed before the
single new entry is appended. -/
theorem api_written_has_one (dispenser rid : String)
    (record : DispenserRecord) (now : ℚ) (w : DispenserRecord)
    (hw : (process_api_event dispenser (some dispenser) (some record) now rid).written
      = some w) :
    countDispense w.requests = 1 := by
  unfold process_api_event at hw
  simp only [read_dispenser] at hw
  rw [if_pos trivial] at hw
  by_cases hc : record.credits < 1
  · rw [if_pos hc] at hw
    exact Option.noConfusion hw
  · rw [if_neg hc] at hw
    cases hfind : request_details record.requests "dispense" with
    | some req =>
      simp only [hfind] at hw
      by_cases hf : now - req.timestamp < 5
      · rw [if_pos hf] at hw
        exact Option.noConfusion hw
      · rw [if_neg hf] at hw
        simp only [Option.some_inj] at hw
        subst hw
        rw [countDispense_append, countDispense_remove]
        simp
    | none =>
      simp only [hfind] at hw
      simp only [Option.some_inj] at hw
      subst hw
      rw [countDispense_append, countDispense_of_none _ hfind]
      simp

/-- Every record written back by the reconcile entry point carries no
dispense entry: each branch removes all dispense entries before any
write. -/
theorem iot_written_no_dispense (dispenser : String) (resp : ShadowResponse)
    (record : DispenserRecord) (now : ℚ) (w : DispenserRecord)
    (hw : (process_iot_event dispenser resp (some record) now).written = some w) :
    countDispense w.requests = 0 := by
  unfold process_iot_event at hw
  cases resp with
  | absent => exact Option.noConfusion hw
  | nullResponse => exact Option.noConfusion hw
  | payload rid res? =>
    cases res? with
    | none => exact Option.noConfusion hw
    | some res =>
      simp only [read_dispenser] at hw
      cases hfind : request_details record.requests "dispense" with
      | none =>
        simp only [hfind] at hw
        exact Option.noConfusion hw
      | some req =>
        simp only [hfind] at hw
        split_ifs at hw
        · simp only [Option.some_inj] at hw
          subst hw
          exact countDispense_remove record
        · simp only [Option.some_inj] at hw
          subst hw
          exact countDispense_remove record
        · simp only [Option.some_inj] at hw
          subst hw
          exact countDispense_remove record

/-- C5: both entry points preserve the invariant that the request
sequence holds at most one dispense entry; moreover every record
actually written by initiate holds exactly one dispense entry (stale
entry removed before the single append) and every record written by
reconcile holds none (all dispense entries removed before the write). -/
theorem C5_at_most_one_dispense_entry (dispenser rid : String)
    (resp : ShadowResponse) (record : DispenserRecord) (now now2 : ℚ)
    (h : countDispense record.requests ≤ 1) :
    countDispense (((process_api_event dispenser (some dispenser) (some record) now rid).written.getD
        record).requests) ≤ 1
    ∧ countDispense (((process_iot_event dispenser resp (some record) now2).written.getD
        record).requests) ≤ 1
    ∧ (process_api_event dispenser (some dispenser) (some record) now rid).written.elim
        True (fun w => countDispense w.requests = 1)
    ∧ (process_iot_event dispenser resp (some record) now2).written.elim
        True (fun w => countDispense w.requests = 0) := by
  refine ⟨?_, ?_, ?_, ?_⟩
  · cases hw : (process_api_event dispenser (some dispenser) (some record) now rid).written with
    | none => simpa [hw] using h
    | some w => simp [hw, api_written_has_one dispenser rid record now w hw]
  · cases hw : (process_iot_event dispenser resp (some record) now2).written with
    | none => simpa [hw] using h
    | some w => simp [hw, iot_written_no_dispense dispenser resp record now2 w hw]
  · cases hw : (process_api_event dispenser (some dispenser) (some record) now rid).written with
    | none => simp [hw]
    | some w => simp [hw, api_written_has_one dispenser rid record now w hw]
  · cases hw : (process_iot_event dispenser resp (some record) now2).written with
    | none => simp [hw]
    | some w => simp [hw, iot_written_no_dispense dispenser resp record now2 w hw]

def c5rec : DispenserRecord :=
  ⟨"055", 2, [⟨"0055-0055", "dispense", 100, "dispenser"⟩]⟩

theorem C5_witness :
    countDispense c5rec.requests ≤ 1 ∧
    (countDispense (((process_api_event "055" (some ("055")) (some c5rec) 101 "0155-0155").written.getD
        c5rec).requests) ≤ 1
    ∧ countDispense (((process_iot_event "055" ShadowResponse.absent (some c5rec) 102).written.getD
        c5rec).requests) ≤ 1
    ∧ (process_api_event "055" (some ("055")) (some c5rec) 101 "0155-0155").written.elim
        True (fun w => countDispense w.requests = 1)
    ∧ (process_iot_event "055" ShadowResponse.absent (some c5rec) 102).written.elim
        True (fun w => countDispense w.requests = 0)) := by
  have h : countDispense c5rec.requests ≤ 1 := by
    simp [countDispense, c5rec]
  exact ⟨h, C5_at_most_one_dispense_entry "055" "0155-0155"
    ShadowResponse.absent c5rec 101 102 h⟩
